import Mathlib

/-!
# RBACService — shallow embedding and verification

Shallow embedding of the credential/session core of the RBACService
repository (NestJS/TypeScript): the `AuthService` operations
(`register`, `login`, `refreshTokens`, `logout`, `generateTokens`),
the JWT codec as used through `@nestjs/jwt` with the configured
secrets/TTLs, the bcrypt hasher, the passport strategies, and the
`RolesGuard` decision.

Modelling conventions:
- The TypeORM repository is a `List User`; `findOne({where:{email}})`
  and `findOne({where:{id}})` are `List.find?` on the respective field,
  `repository.update(id, patch)` maps the patch over every row with the
  matching id (TypeORM's blind single-row UPDATE).
- bcrypt digests are modelled as a pair of the hashed input and the
  salt: hashing the same input under different salts yields different
  digests, and `bcrypt.compare` succeeds exactly when the digest was
  produced from the presented input (collision-freeness idealised, as
  usual for hash modelling).
- JWTs are modelled as the data `signAsync` commits to: the claims
  payload, the signing secret, the issued-at instant (`iat`, which the
  `jsonwebtoken` library always embeds, at seconds resolution) and the
  absolute expiry. Signing is deterministic (HS256 HMAC): equal payload,
  secret, `iat` and expiry give byte-identical token strings, which the
  model reflects as equality of `Token` values. Verification against a
  secret fails when the token was signed with a different secret
  (signature mismatch) or is expired.
- Wall-clock instants and bcrypt salts are explicit `Nat` arguments to
  the operations that read the clock / call `bcrypt.genSalt`.
-/

/-- `UserRole` enum from `user-role.enum.ts` (closed set `user`, `moderator`, `admin`). -/
inductive UserRole where
  | user
  | moderator
  | admin
deriving DecidableEq, Repr

/-- A bcrypt digest over inputs of type `α`: records the hashed input and the salt. -/
structure Digest (α : Type) where
  input : α
  salt : Nat
deriving DecidableEq, Repr

/-- `bcrypt.hash(secret, salt)`. -/
def bcryptHash {α : Type} (secret : α) (salt : Nat) : Digest α :=
  { input := secret, salt := salt }

/-- `bcrypt.compare(secret, digest)`: true iff the digest hashes the presented secret. -/
def bcryptCompare {α : Type} [DecidableEq α] (secret : α) (digest : Digest α) : Bool :=
  digest.input = secret

/-- JWT claims payload as built by `AuthService.generateTokens`:
`{ sub: user.id, email: user.email, role: user.role }`. -/
structure Claims where
  sub : String
  email : String
  role : UserRole
deriving DecidableEq, Repr

/-- A signed JWT: claims, signing secret, issued-at instant and absolute expiry. -/
structure Token where
  claims : Claims
  secret : String
  iat : Nat
  exp : Nat
deriving DecidableEq, Repr

/-- `jwtService.signAsync(payload, { secret, expiresIn })` at wall-clock `now`. -/
def jwtSign (payload : Claims) (secret : String) (expiresIn : Nat) (now : Nat) : Token :=
  { claims := payload, secret := secret, iat := now, exp := now + expiresIn }

/-- Token verification outcomes of the codec. -/
inductive TokenError where
  | malformed
  | expired
deriving DecidableEq, Repr

/-- JWT verification against a secret at wall-clock `now`: signature check
(the token must have been signed with this secret), then expiry check. -/
def jwtVerify (token : Token) (secret : String) (now : Nat) : Except TokenError Claims :=
  if token.secret ≠ secret then .error .malformed
  else if token.exp ≤ now then .error .expired
  else .ok token.claims

/-- The `User` entity: id, email, stored password digest, role, stored
refresh-token digest (`null` ⇒ no live session), active flag, timestamps. -/
structure User where
  id : String
  email : String
  password : Digest String
  role : UserRole
  refreshToken : Option (Digest Token)
  isActive : Bool
  createdAt : Nat
  updatedAt : Nat
deriving DecidableEq, Repr

/-- The user repository (TypeORM `Repository<User>`). -/
abbrev DB := List User

/-- `userRepository.findOne({ where: { email } })` — exact string match, no case folding. -/
def findByEmail (db : DB) (email : String) : Option User :=
  db.find? (fun u => u.email = email)

/-- `userRepository.findOne({ where: { id } })`. -/
def findById (db : DB) (id : String) : Option User :=
  db.find? (fun u => u.id = id)

/-- `userRepository.findOne({ where: { id, isActive: true } })` — the lookup
used by the passport strategies. -/
def findByIdActive (db : DB) (id : String) : Option User :=
  db.find? (fun u => u.id = id && u.isActive)

/-- `userRepository.update(id, patch)`: applies the patch to the row(s) with the given id. -/
def dbUpdate (db : DB) (id : String) (patch : User → User) : DB :=
  db.map (fun u => if u.id = id then patch u else u)

/-- The error taxonomy surfaced by the auth core (exception messages in the source). -/
inductive AuthError where
  /-- `ConflictException('User with this email already exists')` -/
  | duplicateIdentity
  /-- `UnauthorizedException('Invalid credentials')` -/
  | invalidCredentials
  /-- `UnauthorizedException('Account is inactive')` -/
  | inactiveAccount
  /-- `UnauthorizedException('Invalid refresh token')` -/
  | invalidRefreshToken
  /-- `UnauthorizedException('User not found or inactive')` (JwtStrategy) -/
  | userNotFoundOrInactive
  /-- authentication-gate failure on token verification (expired/malformed bearer token) -/
  | unauthenticated
  /-- `ForbiddenException` from the roles guard -/
  | forbidden
deriving DecidableEq, Repr

/-- The configuration surface read through `ConfigService`. -/
structure Config where
  jwtSecret : String
  jwtExpiration : Nat
  jwtRefreshSecret : String
  jwtRefreshExpiration : Nat
deriving Repr

/-- The principal view returned to callers: the `...userWithoutSensitiveData`
rest-spread that strips `password` and `refreshToken`. -/
structure PublicUser where
  id : String
  email : String
  role : UserRole
  isActive : Bool
  createdAt : Nat
  updatedAt : Nat
deriving DecidableEq, Repr

/-- `const { password: _, refreshToken: __, ...userWithoutSensitiveData } = user`. -/
def stripUser (u : User) : PublicUser :=
  { id := u.id, email := u.email, role := u.role, isActive := u.isActive,
    createdAt := u.createdAt, updatedAt := u.updatedAt }

/-- `AuthService.generateTokens(user)`: one claims payload
`{sub, email, role}`, signed twice — once under `JWT_SECRET`/`JWT_EXPIRATION`
(access) and once under `JWT_REFRESH_SECRET`/`JWT_REFRESH_EXPIRATION` (refresh). -/
def generateTokens (cfg : Config) (user : User) (now : Nat) : Token × Token :=
  let payload : Claims := { sub := user.id, email := user.email, role := user.role }
  (jwtSign payload cfg.jwtSecret cfg.jwtExpiration now,
   jwtSign payload cfg.jwtRefreshSecret cfg.jwtRefreshExpiration now)

/-- `AuthService.register(registerDto)`: duplicate-email check, password
hash, create with `role: role || UserRole.USER`, save, return the stripped
view. `newId`/`now` stand for the store-generated id and timestamps,
`salt` for `bcrypt.genSalt(10)`. -/
def register (db : DB) (email password : String) (role? : Option UserRole)
    (salt : Nat) (newId : String) (now : Nat) : Except AuthError (PublicUser × DB) :=
  match findByEmail db email with
  | some _ => .error .duplicateIdentity
  | none =>
    let hashedPassword := bcryptHash password salt
    let user : User :=
      { id := newId, email := email, password := hashedPassword,
        role := role?.getD .user, refreshToken := none, isActive := true,
        createdAt := now, updatedAt := now }
    .ok (stripUser user, db ++ [user])

/-- `AuthService.login(loginDto)`: find by email (`Invalid credentials` if
absent), active check (`Account is inactive`), password check
(`Invalid credentials`), then issue tokens, store the bcrypt hash of the
refresh token and return tokens plus the stripped user. -/
def login (db : DB) (email password : String) (cfg : Config) (now salt : Nat) :
    Except AuthError ((Token × Token × PublicUser) × DB) :=
  match findByEmail db email with
  | none => .error .invalidCredentials
  | some user =>
    if !user.isActive then .error .inactiveAccount
    else if !bcryptCompare password user.password then .error .invalidCredentials
    else
      let tokens := generateTokens cfg user now
      let hashedRefreshToken := bcryptHash tokens.2 salt
      let db' := dbUpdate db user.id (fun u => { u with refreshToken := some hashedRefreshToken })
      .ok ((tokens.1, tokens.2, stripUser user), db')

/-- `AuthService.refreshTokens(userId, refreshToken)`: load by id, fail
`Invalid refresh token` if absent or no stored hash, compare the presented
token against the stored bcrypt hash, fail `Invalid refresh token` on
mismatch; otherwise issue new tokens and overwrite the stored hash. -/
def refreshTokens (db : DB) (userId : String) (refreshToken : Token)
    (cfg : Config) (now salt : Nat) : Except AuthError ((Token × Token) × DB) :=
  match findById db userId with
  | none => .error .invalidRefreshToken
  | some user =>
    match user.refreshToken with
    | none => .error .invalidRefreshToken
    | some stored =>
      if !bcryptCompare refreshToken stored then .error .invalidRefreshToken
      else
        let tokens := generateTokens cfg user now
        let hashedRefreshToken := bcryptHash tokens.2 salt
        let db' := dbUpdate db user.id (fun u => { u with refreshToken := some hashedRefreshToken })
        .ok (tokens, db')

/-- `AuthService.logout(userId)`: unconditionally
`update(userId, { refreshToken: null })` and report success. -/
def logout (db : DB) (userId : String) : DB :=
  dbUpdate db userId (fun u => { u with refreshToken := none })

/-- `JwtRefreshStrategy.validate` (source present): the guard has already
verified the token against `JWT_REFRESH_SECRET`; validate loads
`{ id: payload.sub, isActive: true }` and rejects when the user is absent
or holds no stored refresh hash. -/
def jwtRefreshStrategyValidate (db : DB) (payload : Claims) : Except AuthError User :=
  match findByIdActive db payload.sub with
  | none => .error .invalidRefreshToken
  | some user =>
    if user.refreshToken.isNone then .error .invalidRefreshToken
    else .ok user

/-- Modelled from the spec: `jwt.strategy.ts` (the access-token
`JwtStrategy.validate`) is not under src — only its unit test is. Per the
spec's authentication gate and the test's expectations, it loads
`{ id: payload.sub, isActive: true }` and throws
`UnauthorizedException('User not found or inactive')` when that lookup is empty. -/
def jwtStrategyValidate (db : DB) (payload : Claims) : Except AuthError User :=
  match findByIdActive db payload.sub with
  | none => .error .userNotFoundOrInactive
  | some user => .ok user

/-- Modelled from the spec: `roles.guard.ts` (the `RolesGuard`
implementation) is not under src — only its unit test is. Per spec §4.5 and
the test's truth table: empty required-role set (no `@Roles` metadata)
allows; otherwise allow iff the request's principal is present, carries a
role, and that role is in the required set. -/
def rolesGuardDecide (requiredRoles : List UserRole) (principalRole : Option UserRole) : Bool :=
  if requiredRoles.isEmpty then true
  else
    match principalRole with
    | none => false
    | some r => requiredRoles.contains r

/-- The protected-request pipeline: the authentication gate (bearer-token
verification via the codec, then `JwtStrategy.validate` reloading the live
principal) runs before the roles guard; any gate failure short-circuits
before role evaluation. -/
def protectedRequest (db : DB) (bearer : Token) (cfg : Config) (now : Nat)
    (requiredRoles : List UserRole) : Except AuthError User :=
  match jwtVerify bearer cfg.jwtSecret now with
  | .error _ => .error .unauthenticated
  | .ok claims =>
    match jwtStrategyValidate db claims with
    | .error e => .error e
    | .ok user =>
      if rolesGuardDecide requiredRoles (some user.role) then .ok user
      else .error .forbidden

/-- The refresh endpoint as wired in `AuthController.refresh`:
`JwtRefreshGuard` (codec verification against `JWT_REFRESH_SECRET`, then
`JwtRefreshStrategy.validate`), then `AuthService.refreshTokens(user.id, dto.refreshToken)`. -/
def refreshEndpoint (db : DB) (refreshToken : Token) (cfg : Config)
    (now salt : Nat) : Except AuthError ((Token × Token) × DB) :=
  match jwtVerify refreshToken cfg.jwtRefreshSecret now with
  | .error _ => .error .unauthenticated
  | .ok claims =>
    match jwtRefreshStrategyValidate db claims with
    | .error e => .error e
    | .ok user => refreshTokens db user.id refreshToken cfg now salt

/-- Two `refreshTokens` calls racing on the same principal under the
read-read-write-write interleaving: both calls perform the `findOne` read
against the pre-rotation state `db` and run the bcrypt comparison against
the stored hash they read there; then their `update` writes land one after
the other. This is a reachable schedule of `AuthService.refreshTokens`:
every repository/bcrypt call is an awaited suspension point and the code
takes no lock and uses no compare-and-set between its read and its write.
Returns (result of call A, result of call B, final database). -/
def refreshRaceBothReadPre (db : DB) (userId : String) (tok : Token) (cfg : Config)
    (nowA saltA nowB saltB : Nat) :
    Except AuthError (Token × Token) × Except AuthError (Token × Token) × DB :=
  match findById db userId with
  | none => (.error .invalidRefreshToken, .error .invalidRefreshToken, db)
  | some user =>
    match user.refreshToken with
    | none => (.error .invalidRefreshToken, .error .invalidRefreshToken, db)
    | some stored =>
      if !bcryptCompare tok stored then
        (.error .invalidRefreshToken, .error .invalidRefreshToken, db)
      else
        let tokensA := generateTokens cfg user nowA
        let dbA := dbUpdate db user.id
          (fun u => { u with refreshToken := some (bcryptHash tokensA.2 saltA) })
        let tokensB := generateTokens cfg user nowB
        let dbB := dbUpdate dbA user.id
          (fun u => { u with refreshToken := some (bcryptHash tokensB.2 saltB) })
        (.ok tokensA, .ok tokensB, dbB)

/-! ## Concrete scenario used by witnesses and counterexamples -/

/-- A demo configuration: distinct access/refresh secrets, distinct TTLs. -/
def demoCfg : Config :=
  { jwtSecret := "asec", jwtExpiration := 900,
    jwtRefreshSecret := "rsec", jwtRefreshExpiration := 1000 }

/-- Claims payload of the demo user. -/
def demoPayload : Claims := { sub := "1", email := "user@x.com", role := .user }

/-- A refresh token issued to the demo user at instant 0 under `demoCfg`. -/
def tOld : Token := jwtSign demoPayload "rsec" 1000 0

/-- A demo user with no live session. -/
def demoUser : User :=
  { id := "1", email := "user@x.com", password := bcryptHash "Secret123" 3,
    role := .user, refreshToken := none, isActive := true,
    createdAt := 0, updatedAt := 0 }

/-- The demo user with a live session: the stored hash matches `tOld`. -/
def liveUser : User := { demoUser with refreshToken := some (bcryptHash tOld 7) }

/-- A one-user database holding the live session. -/
def dbLive : DB := [liveUser]

/-- An inactive user that still holds a stored refresh-token hash. -/
def inactUser : User :=
  { id := "2", email := "inactive@x.com", password := bcryptHash "Secret123" 4,
    role := .user, refreshToken := some (bcryptHash (jwtSign { sub := "2", email := "inactive@x.com", role := .user } "rsec" 1000 0) 5),
    isActive := false, createdAt := 0, updatedAt := 0 }

/-! ## Helper lemmas -/

/-- A `dbUpdate` with an id-preserving patch rewrites exactly the row
`findById` returns. -/
theorem findById_dbUpdate (db : DB) (id : String) (patch : User → User)
    (hid : ∀ u, (patch u).id = u.id) :
    findById (dbUpdate db id patch) id = Option.map patch (findById db id) := by
  induction db with
  | nil => rfl
  | cons v db ih =>
    simp only [findById, dbUpdate, List.map_cons, List.find?_cons] at ih ⊢
    by_cases hv : v.id = id
    · simp [hv, hid v]
    · simp [hv, hid v, ih]

/-- Specialisation of `findById_dbUpdate` to a row known to be present. -/
theorem findById_dbUpdate_some (db : DB) (id : String) (patch : User → User)
    (hid : ∀ u, (patch u).id = u.id) (u : User) (h : findById db id = some u) :
    findById (dbUpdate db id patch) id = some (patch u) := by
  rw [findById_dbUpdate db id patch hid, h]
  rfl

/-! ## C3 — Access Control Guard decision -/

/-- C3: the guard's decision is a pure function of the required-role set `S`
and the principal's role `r`: it allows when `S` is empty, and otherwise
allows exactly when a principal is present, carries a role, and that role
belongs to `S` — denying in particular when no principal (or no role) is
attached to the request. -/
theorem rolesGuardDecide_spec (S : List UserRole) (r : Option UserRole) :
    rolesGuardDecide S r = true ↔
      (S = [] ∨ ∃ ρ, r = some ρ ∧ ρ ∈ S) := by
  unfold rolesGuardDecide
  cases S with
  | nil => simp
  | cons a S =>
    cases r with
    | none => simp
    | some ρ => simp [List.elem_iff]

/-! ## C8 — access and refresh tokens are not interchangeable -/

/-- C8: when the configured access and refresh secrets differ, a token
issued by `generateTokens` under the access profile is rejected as
malformed by verification against the refresh secret, and vice versa, at
every verification instant. -/
theorem access_refresh_not_interchangeable (cfg : Config) (user : User)
    (nowIssue nowVerify : Nat) (hsec : cfg.jwtSecret ≠ cfg.jwtRefreshSecret) :
    jwtVerify (generateTokens cfg user nowIssue).1 cfg.jwtRefreshSecret nowVerify
        = .error .malformed ∧
    jwtVerify (generateTokens cfg user nowIssue).2 cfg.jwtSecret nowVerify
        = .error .malformed := by
  unfold generateTokens jwtSign jwtVerify
  simp [hsec, Ne.symm hsec]

/-- Witness for C8 at the demo configuration (`"asec" ≠ "rsec"`). -/
theorem access_refresh_not_interchangeable_witness :
    jwtVerify (generateTokens demoCfg demoUser 0).1 demoCfg.jwtRefreshSecret 1
        = .error .malformed ∧
    jwtVerify (generateTokens demoCfg demoUser 0).2 demoCfg.jwtSecret 1
        = .error .malformed :=
  access_refresh_not_interchangeable demoCfg demoUser 0 1 (by decide)

/-! ## C9 — logout clears the session and is idempotent -/

/-- C9: for every principal present in the store, `logout` succeeds and
sets the stored refresh hash to `none`; and `logout` is idempotent — a
second `logout` leaves the database exactly as the first left it. -/
theorem logout_clears_and_idempotent :
    (∀ (db : DB) (uid : String) (u : User), findById db uid = some u →
        findById (logout db uid) uid = some { u with refreshToken := none }) ∧
    (∀ (db : DB) (uid : String), logout (logout db uid) uid = logout db uid) := by
  constructor
  · intro db uid u h
    exact findById_dbUpdate_some db uid (fun v => { v with refreshToken := none }) (fun _ => rfl) u h
  · intro db uid
    unfold logout dbUpdate
    rw [List.map_map]
    apply List.map_congr_left
    intro u _
    by_cases h : u.id = uid <;> simp [h]

/-- Witness for C9 on the one-user demo database. -/
theorem logout_clears_and_idempotent_witness :
    findById (logout dbLive "1") "1" = some { liveUser with refreshToken := none } ∧
    logout (logout dbLive "1") "1" = logout dbLive "1" :=
  ⟨logout_clears_and_idempotent.1 dbLive "1" liveUser (by decide),
   logout_clears_and_idempotent.2 dbLive "1"⟩

/-! ## C10 — identical payload under both profiles; distinctness of secrets not enforced -/

/-- C10: both tokens of a pair are signed over the identical claims payload
`{sub, email, role}`; each token is exactly the signature of that payload
under its configured secret/TTL profile (so token kind is determined solely
by the profile); and nothing enforces distinct secrets — when the two
configured secrets coincide (and the access TTL is positive), the access
token verifies successfully against the refresh secret. -/
theorem generateTokens_payload_profile (cfg : Config) (user : User) (now : Nat) :
    (generateTokens cfg user now).1.claims = (generateTokens cfg user now).2.claims ∧
    (generateTokens cfg user now).1 =
      jwtSign { sub := user.id, email := user.email, role := user.role }
        cfg.jwtSecret cfg.jwtExpiration now ∧
    (generateTokens cfg user now).2 =
      jwtSign { sub := user.id, email := user.email, role := user.role }
        cfg.jwtRefreshSecret cfg.jwtRefreshExpiration now ∧
    (cfg.jwtSecret = cfg.jwtRefreshSecret → 0 < cfg.jwtExpiration →
      jwtVerify (generateTokens cfg user now).1 cfg.jwtRefreshSecret now =
        .ok { sub := user.id, email := user.email, role := user.role }) := by
  refine ⟨rfl, rfl, rfl, ?_⟩
  intro hs ht
  simp only [generateTokens, jwtSign, jwtVerify, hs]
  simp
  omega

/-- Witness for C10 at a configuration whose two secrets coincide. -/
theorem generateTokens_payload_profile_witness :
    (generateTokens { jwtSecret := "s", jwtExpiration := 5,
                      jwtRefreshSecret := "s", jwtRefreshExpiration := 7 } demoUser 0).1.claims
      = (generateTokens { jwtSecret := "s", jwtExpiration := 5,
                          jwtRefreshSecret := "s", jwtRefreshExpiration := 7 } demoUser 0).2.claims ∧
    jwtVerify (generateTokens { jwtSecret := "s", jwtExpiration := 5,
                                jwtRefreshSecret := "s", jwtRefreshExpiration := 7 } demoUser 0).1 "s" 0
      = .ok { sub := demoUser.id, email := demoUser.email, role := demoUser.role } :=
  ⟨(generateTokens_payload_profile _ demoUser 0).1,
   (generateTokens_payload_profile
      { jwtSecret := "s", jwtExpiration := 5, jwtRefreshSecret := "s", jwtRefreshExpiration := 7 }
      demoUser 0).2.2.2 rfl (by decide)⟩

/-! ## C4 — when refresh fails InvalidRefreshToken -/

/-- C4: `refreshTokens` fails `InvalidRefreshToken` exactly when the
principal named by the presented subject is absent, or holds no stored
refresh hash, or the presented token does not match the stored hash; and a
refresh after `logout` of that principal always fails `InvalidRefreshToken`. -/
theorem refreshTokens_invalid_iff :
    (∀ (db : DB) (uid : String) (tok : Token) (cfg : Config) (now salt : Nat),
       refreshTokens db uid tok cfg now salt = .error .invalidRefreshToken ↔
         (findById db uid = none ∨
          (∃ u, findById db uid = some u ∧ u.refreshToken = none) ∨
          (∃ u d, findById db uid = some u ∧ u.refreshToken = some d ∧
                  bcryptCompare tok d = false))) ∧
    (∀ (db : DB) (uid : String) (tok : Token) (cfg : Config) (now salt : Nat),
       refreshTokens (logout db uid) uid tok cfg now salt = .error .invalidRefreshToken) := by
  constructor
  · intro db uid tok cfg now salt
    unfold refreshTokens
    cases h1 : findById db uid with
    | none => simp [h1]
    | some u =>
      cases h2 : u.refreshToken with
      | none => simp [h1, h2]
      | some d =>
        cases h3 : bcryptCompare tok d with
        | false => simp [h1, h2, h3]
        | true => simp [h1, h2, h3]
  · intro db uid tok cfg now salt
    unfold refreshTokens
    rw [show findById (logout db uid) uid
          = Option.map (fun v => { v with refreshToken := none }) (findById db uid) from
        findById_dbUpdate db uid _ (fun _ => rfl)]
    cases findById db uid <;> simp

/-! ## C5 — login error taxonomy and ordering -/

/-- C5: `login` fails `InvalidCredentials` when no principal bears the
email; otherwise fails `InactiveAccount` when the principal is inactive
(before any password check — no hypothesis on the password is needed);
otherwise fails `InvalidCredentials` when password verification fails. The
unknown-email and wrong-password outcomes are the identical error value,
while `InactiveAccount` is a distinct one. -/
theorem login_error_taxonomy :
    (∀ (db : DB) (email pw : String) (cfg : Config) (now salt : Nat),
       findByEmail db email = none →
       login db email pw cfg now salt = .error .invalidCredentials) ∧
    (∀ (db : DB) (email pw : String) (cfg : Config) (now salt : Nat) (u : User),
       findByEmail db email = some u → u.isActive = false →
       login db email pw cfg now salt = .error .inactiveAccount) ∧
    (∀ (db : DB) (email pw : String) (cfg : Config) (now salt : Nat) (u : User),
       findByEmail db email = some u → u.isActive = true →
       bcryptCompare pw u.password = false →
       login db email pw cfg now salt = .error .invalidCredentials) ∧
    AuthError.inactiveAccount ≠ AuthError.invalidCredentials := by
  refine ⟨?_, ?_, ?_, by decide⟩
  · intro db email pw cfg now salt h
    unfold login
    simp [h]
  · intro db email pw cfg now salt u h ha
    unfold login
    simp [h, ha]
  · intro db email pw cfg now salt u h ha hc
    unfold login
    simp [h, ha, hc]

/-- Witness for C5: unknown email; inactive account presented the correct
password; active account presented a wrong password. -/
theorem login_error_taxonomy_witness :
    login [] "nobody@x.com" "pw" demoCfg 0 0 = .error .invalidCredentials ∧
    login [inactUser] "inactive@x.com" "Secret123" demoCfg 0 0 = .error .inactiveAccount ∧
    login [demoUser] "user@x.com" "wrong" demoCfg 0 0 = .error .invalidCredentials :=
  ⟨login_error_taxonomy.1 [] "nobody@x.com" "pw" demoCfg 0 0 (by decide),
   login_error_taxonomy.2.1 [inactUser] "inactive@x.com" "Secret123" demoCfg 0 0 inactUser
     (by decide) (by decide),
   login_error_taxonomy.2.2.1 [demoUser] "user@x.com" "wrong" demoCfg 0 0 demoUser
     (by decide) (by decide) (by decide)⟩

/-! ## C6 — registration -/

/-- C6: `register` fails `DuplicateIdentity` exactly when a principal with
that exact email is already present (lookup is exact string equality — no
case normalization); on a fresh email it persists a principal whose role
defaults to `user`, whose password field holds only the bcrypt digest, and
returns the stripped view (the `PublicUser` projection has no password or
refresh-hash field); registering the same email twice yields success then
`DuplicateIdentity`. -/
theorem register_spec :
    (∀ (db : DB) (email pw : String) (r? : Option UserRole) (salt : Nat)
       (newId : String) (now : Nat),
       register db email pw r? salt newId now = .error .duplicateIdentity ↔
         (findByEmail db email).isSome = true) ∧
    (∀ (db : DB) (email pw : String) (r? : Option UserRole) (salt : Nat)
       (newId : String) (now : Nat),
       findByEmail db email = none →
       ∃ u : User,
         register db email pw r? salt newId now = .ok (stripUser u, db ++ [u]) ∧
         u.email = email ∧
         u.password = bcryptHash pw salt ∧
         u.role = r?.getD .user ∧
         u.refreshToken = none) ∧
    (∀ (db : DB) (email pw pw2 : String) (r1 r2 : Option UserRole)
       (salt1 salt2 : Nat) (id1 id2 : String) (now1 now2 : Nat),
       findByEmail db email = none →
       ∃ view db1,
         register db email pw r1 salt1 id1 now1 = .ok (view, db1) ∧
         register db1 email pw2 r2 salt2 id2 now2 = .error .duplicateIdentity) := by
  refine ⟨?_, ?_, ?_⟩
  · intro db email pw r? salt newId now
    unfold register
    cases h : findByEmail db email <;> simp [h]
  · intro db email pw r? salt newId now h
    refine ⟨{ id := newId, email := email, password := bcryptHash pw salt,
              role := r?.getD .user, refreshToken := none, isActive := true,
              createdAt := now, updatedAt := now }, ?_, rfl, rfl, rfl, rfl⟩
    unfold register
    simp [h]
  · intro db email pw pw2 r1 r2 salt1 salt2 id1 id2 now1 now2 h
    refine ⟨stripUser { id := id1, email := email, password := bcryptHash pw salt1,
                        role := r1.getD .user, refreshToken := none, isActive := true,
                        createdAt := now1, updatedAt := now1 },
            db ++ [{ id := id1, email := email, password := bcryptHash pw salt1,
                     role := r1.getD .user, refreshToken := none, isActive := true,
                     createdAt := now1, updatedAt := now1 }], ?_, ?_⟩
    · unfold register
      simp [h]
    · unfold register
      have : findByEmail (db ++
          [{ id := id1, email := email, password := bcryptHash pw salt1,
             role := r1.getD .user, refreshToken := none, isActive := true,
             createdAt := now1, updatedAt := now1 }]) email
          = some { id := id1, email := email, password := bcryptHash pw salt1,
                   role := r1.getD .user, refreshToken := none, isActive := true,
                   createdAt := now1, updatedAt := now1 } := by
        unfold findByEmail at h ⊢
        rw [List.find?_append, h]
        simp
      simp [this]

/-- Witness for C6: fresh registration into the empty store, then
duplicate registration of the same email. -/
theorem register_spec_witness :
    (register [] "new@x.com" "Secret123" none 3 "9" 5 = .error .duplicateIdentity ↔
      (findByEmail [] "new@x.com").isSome = true) ∧
    (∃ u : User,
       register [] "new@x.com" "Secret123" none 3 "9" 5 = .ok (stripUser u, [] ++ [u]) ∧
       u.email = "new@x.com" ∧
       u.password = bcryptHash "Secret123" 3 ∧
       u.role = (Option.none).getD .user ∧
       u.refreshToken = none) ∧
    (∃ view db1,
       register [] "new@x.com" "Secret123" none 3 "9" 5 = .ok (view, db1) ∧
       register db1 "new@x.com" "Other1234" (some .admin) 4 "10" 6 = .error .duplicateIdentity) :=
  ⟨register_spec.1 [] "new@x.com" "Secret123" none 3 "9" 5,
   register_spec.2.1 [] "new@x.com" "Secret123" none 3 "9" 5 (by decide),
   register_spec.2.2 [] "new@x.com" "Secret123" "Other1234" none (some .admin) 3 4 "9" "10" 5 6 (by decide)⟩

/-! ## C1 — refresh-token rotation -/

/-- C1 counterexample: signing is deterministic and `iat` has wall-clock
(seconds) resolution, so a refresh performed at the same instant at which
the presented refresh token was issued re-issues a byte-identical refresh
token; the returned refresh token does not differ from the presented one,
and a later refresh presenting the pre-rotation token still succeeds
instead of failing `InvalidRefreshToken`. -/
theorem refresh_rotation_counterexample :
    refreshTokens dbLive "1" tOld demoCfg 0 8 =
      .ok ((jwtSign demoPayload "asec" 900 0, tOld),
           [{ liveUser with refreshToken := some (bcryptHash tOld 8) }]) ∧
    refreshTokens [{ liveUser with refreshToken := some (bcryptHash tOld 8) }]
        "1" tOld demoCfg 0 9 =
      .ok ((jwtSign demoPayload "asec" 900 0, tOld),
           [{ liveUser with refreshToken := some (bcryptHash tOld 9) }]) := by
  constructor <;> rfl

/-- C1 (amended): for a principal with a live session, refresh presenting
the stored token succeeds; provided the new pair is issued at a wall-clock
instant different from the presented token's issued-at instant, the
returned refresh token differs from the presented one and every later
refresh presenting the old pre-rotation token fails `InvalidRefreshToken`,
regardless of expiry. -/
theorem refresh_rotates_and_invalidates_old
    (db : DB) (uid : String) (tok : Token) (cfg : Config)
    (now salt now2 salt2 : Nat) (u : User) (d : Digest Token)
    (hfind : findById db uid = some u) (hstore : u.refreshToken = some d)
    (hmatch : d.input = tok) (hiat : now ≠ tok.iat) :
    ∃ pair db1,
      refreshTokens db uid tok cfg now salt = .ok (pair, db1) ∧
      pair.2 ≠ tok ∧
      refreshTokens db1 uid tok cfg now2 salt2 = .error .invalidRefreshToken := by
  have huid : u.id = uid := by
    have h := List.find?_some hfind
    simpa using h
  subst huid
  have hne : (generateTokens cfg u now).2 ≠ tok := by
    intro he
    apply hiat
    rw [← he]
    rfl
  have hcmp : bcryptCompare tok d = true := by
    simp [bcryptCompare, hmatch]
  refine ⟨generateTokens cfg u now,
          dbUpdate db u.id (fun v =>
            { v with refreshToken := some (bcryptHash (generateTokens cfg u now).2 salt) }),
          ?_, hne, ?_⟩
  · unfold refreshTokens
    simp [hfind, hstore, hcmp]
  · have hfind1 := findById_dbUpdate_some db u.id
      (fun v => { v with refreshToken := some (bcryptHash (generateTokens cfg u now).2 salt) })
      (fun _ => rfl) u hfind
    unfold refreshTokens
    rw [hfind1]
    simp [bcryptCompare, bcryptHash, hne]

/-- Witness for the amended C1: rotation at instant 1 on a token issued at
instant 0 rotates properly and invalidates the old token. -/
theorem refresh_rotates_and_invalidates_old_witness :
    ∃ pair db1,
      refreshTokens dbLive "1" tOld demoCfg 1 8 = .ok (pair, db1) ∧
      pair.2 ≠ tOld ∧
      refreshTokens db1 "1" tOld demoCfg 2 9 = .error .invalidRefreshToken :=
  refresh_rotates_and_invalidates_old dbLive "1" tOld demoCfg 1 8 2 9 liveUser
    (bcryptHash tOld 7) (by decide) rfl rfl (by decide)

/-! ## C2 — concurrent refresh -/

/-- C2 counterexample: the code's read-verify-write is not atomic (no
transaction or compare-and-set spans `findOne`, `bcrypt.compare` and
`update`), so under the reachable interleaving in which both racing calls
read the pre-rotation state before either writes, both calls succeed —
refuting "exactly one call observes the pre-rotation stored hash and
succeeds, the other fails"; the stored hash afterwards is that of the last
writer's new refresh token. -/
theorem refresh_race_counterexample :
    refreshRaceBothReadPre dbLive "1" tOld demoCfg 1 8 2 9 =
      (.ok (generateTokens demoCfg liveUser 1),
       .ok (generateTokens demoCfg liveUser 2),
       [{ liveUser with
            refreshToken := some (bcryptHash (generateTokens demoCfg liveUser 2).2 9) }]) := by
  rfl

/-- C2 (amended): when the store serializes the two calls' read-verify-write
sequences, and the winning call issues its new pair at a wall-clock instant
different from the presented token's issued-at instant (otherwise the
re-issued refresh token is byte-identical to the presented one and the
stale call still succeeds), exactly one refresh succeeds: the first call
rotates the hash, and the second call — which observes the post-rotation
state with the stale token — fails `InvalidRefreshToken`; the stored hash
afterwards is the hash of the winner's newly issued refresh token. -/
theorem refresh_race_serialized_exactly_one
    (db : DB) (uid : String) (tok : Token) (cfg : Config)
    (nowA saltA nowB saltB : Nat) (u : User) (d : Digest Token)
    (hfind : findById db uid = some u) (hstore : u.refreshToken = some d)
    (hmatch : d.input = tok) (hiat : nowA ≠ tok.iat) :
    ∃ pairA db1,
      refreshTokens db uid tok cfg nowA saltA = .ok (pairA, db1) ∧
      refreshTokens db1 uid tok cfg nowB saltB = .error .invalidRefreshToken ∧
      findById db1 uid = some { u with refreshToken := some (bcryptHash pairA.2 saltA) } := by
  have huid : u.id = uid := by
    have h := List.find?_some hfind
    simpa using h
  subst huid
  have hne : (generateTokens cfg u nowA).2 ≠ tok := by
    intro he
    apply hiat
    rw [← he]
    rfl
  have hcmp : bcryptCompare tok d = true := by
    simp [bcryptCompare, hmatch]
  have hfind1 := findById_dbUpdate_some db u.id
    (fun v => { v with refreshToken := some (bcryptHash (generateTokens cfg u nowA).2 saltA) })
    (fun _ => rfl) u hfind
  refine ⟨generateTokens cfg u nowA,
          dbUpdate db u.id (fun v =>
            { v with refreshToken := some (bcryptHash (generateTokens cfg u nowA).2 saltA) }),
          ?_, ?_, hfind1⟩
  · unfold refreshTokens
    simp [hfind, hstore, hcmp]
  · unfold refreshTokens
    rw [hfind1]
    simp [bcryptCompare, bcryptHash, hne]

/-- Witness for the amended C2: serialized schedule on the live demo
session — the first refresh wins, the second fails. -/
theorem refresh_race_serialized_exactly_one_witness :
    ∃ pairA db1,
      refreshTokens dbLive "1" tOld demoCfg 3 8 = .ok (pairA, db1) ∧
      refreshTokens db1 "1" tOld demoCfg 4 9 = .error .invalidRefreshToken ∧
      findById db1 "1" = some { liveUser with refreshToken := some (bcryptHash pairA.2 8) } :=
  refresh_race_serialized_exactly_one dbLive "1" tOld demoCfg 3 8 4 9 liveUser
    (bcryptHash tOld 7) (by decide) rfl rfl (by decide)

/-! ## C7 — inactive principals never authenticate -/

/-- With unique ids, a principal found inactive by plain id lookup is
invisible to the active-only lookup the passport strategies use. -/
theorem findByIdActive_none_of_inactive (db : DB) (id : String) (u : User)
    (hnodup : (db.map User.id).Nodup) (hfind : findById db id = some u)
    (hina : u.isActive = false) : findByIdActive db id = none := by
  unfold findByIdActive
  rw [List.find?_eq_none]
  intro v hv hpv
  simp only [Bool.and_eq_true, decide_eq_true_eq] at hpv
  obtain ⟨hvid, hvact⟩ := hpv
  have humem : u ∈ db := List.mem_of_find?_eq_some hfind
  have huid : u.id = id := by
    have h := List.find?_some hfind
    simpa using h
  have hvu : v = u := List.inj_on_of_nodup_map hnodup hv humem (by rw [hvid, huid])
  rw [hvu, hina] at hvact
  exact Bool.false_ne_true hvact

/-- C7: no reachable operation authenticates an inactive principal: `login`
fails `InactiveAccount` regardless of the presented password; the
access-token gate (`JwtStrategy.validate`) and the refresh gate
(`JwtRefreshStrategy.validate`) reject a token whose subject has since been
deactivated — even when that principal still holds a stored refresh hash —
and in the protected-request pipeline this authentication failure is the
outcome for every required-role set, so role evaluation never runs. -/
theorem inactive_never_authenticates :
    (∀ (db : DB) (email pw : String) (cfg : Config) (now salt : Nat) (u : User),
       findByEmail db email = some u → u.isActive = false →
       login db email pw cfg now salt = .error .inactiveAccount) ∧
    (∀ (db : DB) (payload : Claims) (u : User), (db.map User.id).Nodup →
       findById db payload.sub = some u → u.isActive = false →
       jwtStrategyValidate db payload = .error .userNotFoundOrInactive) ∧
    (∀ (db : DB) (payload : Claims) (u : User), (db.map User.id).Nodup →
       findById db payload.sub = some u → u.isActive = false →
       jwtRefreshStrategyValidate db payload = .error .invalidRefreshToken) ∧
    (∀ (db : DB) (bearer : Token) (cfg : Config) (now : Nat) (S : List UserRole) (u : User),
       (db.map User.id).Nodup →
       findById db bearer.claims.sub = some u → u.isActive = false →
       bearer.secret = cfg.jwtSecret → now < bearer.exp →
       protectedRequest db bearer cfg now S = .error .userNotFoundOrInactive) := by
  refine ⟨?_, ?_, ?_, ?_⟩
  · intro db email pw cfg now salt u h ha
    unfold login
    simp [h, ha]
  · intro db payload u hnodup hfind hina
    unfold jwtStrategyValidate
    rw [findByIdActive_none_of_inactive db payload.sub u hnodup hfind hina]
  · intro db payload u hnodup hfind hina
    unfold jwtRefreshStrategyValidate
    rw [findByIdActive_none_of_inactive db payload.sub u hnodup hfind hina]
  · intro db bearer cfg now S u hnodup hfind hina hsec hexp
    unfold protectedRequest
    have hv : jwtVerify bearer cfg.jwtSecret now = .ok bearer.claims := by
      unfold jwtVerify
      simp [hsec]
      omega
    rw [hv]
    have hs : jwtStrategyValidate db bearer.claims = .error .userNotFoundOrInactive := by
      unfold jwtStrategyValidate
      rw [findByIdActive_none_of_inactive db bearer.claims.sub u hnodup hfind hina]
    simp [hs]

/-- Witness for C7: the deactivated demo principal — which still holds a
stored refresh-token hash — fails login with the correct password, fails
both token gates, and fails the protected-request pipeline before role
evaluation for a non-empty required-role set. -/
theorem inactive_never_authenticates_witness :
    inactUser.refreshToken.isSome = true ∧
    login [inactUser] "inactive@x.com" "Secret123" demoCfg 0 0 = .error .inactiveAccount ∧
    jwtStrategyValidate [inactUser] { sub := "2", email := "inactive@x.com", role := .user }
      = .error .userNotFoundOrInactive ∧
    jwtRefreshStrategyValidate [inactUser] { sub := "2", email := "inactive@x.com", role := .user }
      = .error .invalidRefreshToken ∧
    protectedRequest [inactUser]
      (jwtSign { sub := "2", email := "inactive@x.com", role := .user } "asec" 900 0)
      demoCfg 1 [.admin] = .error .userNotFoundOrInactive :=
  ⟨by decide,
   inactive_never_authenticates.1 [inactUser] "inactive@x.com" "Secret123" demoCfg 0 0 inactUser
     (by decide) (by decide),
   inactive_never_authenticates.2.1 [inactUser] _ inactUser (by decide) (by decide) (by decide),
   inactive_never_authenticates.2.2.1 [inactUser] _ inactUser (by decide) (by decide) (by decide),
   inactive_never_authenticates.2.2.2 [inactUser] _ demoCfg 1 [.admin] inactUser
     (by decide) (by decide) (by decide) (by decide) (by decide)⟩
